import Mathlib

set_option maxHeartbeats 1000000

/- Shallow embedding of backend/main.py of the SpaceSituationalAwareness
repository: TLE field parsing, epoch and staleness computation, two-body
orbital parameters, the SGP4 adapter and the heuristic classification
engine, together with theorems checking the specification claims.

Python floats are idealised as exact rationals (for the computable parsing
layer) or reals (for the orbital arithmetic); datetime values are idealised
as rational day counts whose integer part is the proleptic-Gregorian
ordinal used by Python datetime.  The external SGP4 propagator and the wall
clock are external collaborators and enter the model as parameters. -/

/-- Python ASCII whitespace test backing str.strip (space, tab, newline,
carriage return, vertical tab, form feed). -/
def pyWs (c : Char) : Bool :=
  c == ' ' || c == '\t' || c == '\n' || c == '\r' || c.toNat == 11 || c.toNat == 12

/-- Python str.strip on a list of characters. -/
def pyStripChars (cs : List Char) : List Char :=
  ((cs.dropWhile pyWs).reverse.dropWhile pyWs).reverse

/-- Python slice s[a:b] for constants 0 ≤ a ≤ b, with the clamping slice
semantics (a short string yields a short or empty slice, never an error). -/
def pySlice (s : String) (a b : Nat) : List Char :=
  (s.data.drop a).take (b - a)

/-- Python str.upper restricted to ASCII letters (the only characters the
pattern lists can match). -/
def pyUpper (s : String) : String :=
  String.mk (s.data.map Char.toUpper)

/-- Contiguous-substring test on character lists: Python operator in. -/
def containsSubL (p : List Char) : List Char → Bool
  | [] => p.isPrefixOf []
  | c :: rest => p.isPrefixOf (c :: rest) || containsSubL p rest

/-- Contiguous-substring test on strings: Python operator in. -/
def containsSub (p s : String) : Bool :=
  containsSubL p.data s.data

/-- Numeric value of an ASCII digit character. -/
def digitVal (c : Char) : Nat := c.toNat - 48

/-- Scanner for a Python digit group: digits with single underscores allowed
strictly between two digits.  prevDigit records whether the previous
character was a digit; acc and nd accumulate the value and the number of
digits.  Returns the value and digit count, or none on a malformed group. -/
def dgAux (prevDigit : Bool) (acc nd : Nat) : List Char → Option (Nat × Nat)
  | [] => if prevDigit then some (acc, nd) else none
  | c :: cs =>
    if c.isDigit then dgAux true (10 * acc + digitVal c) (nd + 1) cs
    else if c == '_' && prevDigit then dgAux false acc nd cs
    else none

/-- Python digit group: value and number of digits. -/
def dgroup (cs : List Char) : Option (Nat × Nat) := dgAux false 0 0 cs

/-- Python int() on a character list: optional surrounding whitespace,
optional sign, ASCII digit group.  none models a ValueError. -/
def pyIntL (cs0 : List Char) : Option Int :=
  match pyStripChars cs0 with
  | '+' :: rest => (dgroup rest).map (fun p => (p.1 : Int))
  | '-' :: rest => (dgroup rest).map (fun p => -(p.1 : Int))
  | cs => (dgroup cs).map (fun p => (p.1 : Int))

/-- Mantissa of a Python float literal: a digit group, optionally split by
one decimal point, with at least one digit on one side. -/
def pyMant (cs : List Char) : Option ℚ :=
  match cs.span (fun c => c != '.') with
  | (ip, []) => (dgroup ip).map (fun p => (p.1 : ℚ))
  | (ip, _ :: fp) =>
    match ip, fp with
    | [], _ => (dgroup fp).map (fun p => (p.1 : ℚ) / 10 ^ p.2)
    | _, [] => (dgroup ip).map (fun p => (p.1 : ℚ))
    | _, _ =>
      match dgroup ip, dgroup fp with
      | some i, some f => some ((i.1 : ℚ) + (f.1 : ℚ) / 10 ^ f.2)
      | _, _ => none

/-- Exponent of a Python float literal (the part after e/E). -/
def pyExp (cs : List Char) : Option Int :=
  match cs with
  | '+' :: rest => (dgroup rest).map (fun p => (p.1 : Int))
  | '-' :: rest => (dgroup rest).map (fun p => -(p.1 : Int))
  | _ => (dgroup cs).map (fun p => (p.1 : Int))

/-- Unsigned Python float literal: mantissa with optional exponent part. -/
def pyFloatMag (cs : List Char) : Option ℚ :=
  match cs.span (fun c => c != 'e' && c != 'E') with
  | (mant, []) => pyMant mant
  | (mant, _ :: ex) =>
    match pyMant mant, pyExp ex with
    | some m, some e => some (m * (10 : ℚ) ^ e)
    | _, _ => none

/-- Python float() on a character list, idealised to exact rationals: the
finite decimal/exponent grammar with ASCII digits and underscores.  The IEEE
specials inf and nan fall outside the rational idealisation.  none models a
ValueError. -/
def pyFloatL (cs0 : List Char) : Option ℚ :=
  match pyStripChars cs0 with
  | '+' :: rest => pyFloatMag rest
  | '-' :: rest => (pyFloatMag rest).map (fun q => -q)
  | cs => pyFloatMag cs

/-- Round to the nearest integer with ties to even: the rounding used by
Python round() and numeric formatting, idealised to exact values. -/
def rhe {α : Type} [LinearOrderedField α] [FloorRing α] (x : α) : ℤ :=
  let f := ⌊x⌋
  if x - f < 1 / 2 then f
  else if 1 / 2 < x - f then f + 1
  else if f % 2 = 0 then f else f + 1

/-- Python round(x, n) for a nonnegative digit count, exact arithmetic. -/
def roundTo {α : Type} [LinearOrderedField α] [FloorRing α] (x : α) (n : ℕ) : α :=
  ((rhe (x * 10 ^ n) : ℤ) : α) / 10 ^ n

/-- Digits of a fixed-point number scaled by 10 (integer part, dot, one
decimal digit). -/
def fmt1Core (m : Nat) : String :=
  toString (m / 10) ++ "." ++ toString (m % 10)

/-- Python format .1f, idealised to exact half-even rounding. -/
def fmt1 (q : ℚ) : String :=
  let n := rhe (q * 10)
  if n < 0 then "-" ++ fmt1Core n.natAbs else fmt1Core n.natAbs

/-- Python format .0% (percentage with no decimals). -/
def pct0 {α : Type} [LinearOrderedField α] [FloorRing α] (x : α) : String :=
  toString (rhe (x * 100)) ++ "%"

/-- Probability triple over the three substantive classes (the Python dict
with keys payload, rocket_body, debris). -/
structure Proba (α : Type) where
  payload : α
  rocket_body : α
  debris : α
deriving DecidableEq

/-- Tuple returned by classify_object: class label, confidence, probability
triple and reason text. -/
structure ClassifyResult (α : Type) where
  cls : String
  confidence : α
  proba : Proba α
  reason : String
deriving DecidableEq

/-- Debris name patterns, in source order. -/
def debris_patterns : List String := ["DEB", "DEBRIS", " DEB ", "/DEB", "-DEB"]

/-- Rocket-body name patterns, in source order. -/
def rocket_patterns : List String :=
  ["R/B", "ROCKET", "ROCKET BODY", " RB", "/RB", "FREGAT", "BRIZ", "CENTAUR", "DELTA"]

/-- Known-constellation payload name patterns, in source order. -/
def payload_patterns : List String :=
  ["STARLINK", "ONEWEB", "IRIDIUM", "GPS", "GLONASS", "GALILEO", "BEIDOU", "COSMOS", "INTELSAT"]

/-- Single-quote character used by the Python reason f-strings. -/
def pyQuote : String := String.mk [Char.ofNat 39]

/-- classify_object from backend/main.py: the ordered rule cascade.  Name
patterns are tried group by group in source order (Python for loops over the
three lists, modelled by List.find?), and when no pattern matches the
altitude-band ladder decides.  The Python guard name.upper() if name else ""
equals pyUpper name because pyUpper of the empty string is empty.  The
eccentricity parameter is accepted and ignored exactly as in the source. -/
def classify_object {α : Type} [LinearOrderedField α] (name : String)
    (altitude_km : α) (eccentricity : α := 0) : ClassifyResult α :=
  let name_upper := pyUpper name
  match debris_patterns.find? (fun p => containsSub p name_upper) with
  | some pattern =>
    ⟨"debris", 0.95, ⟨0.02, 0.03, 0.95⟩, "Nombre contiene " ++ pyQuote ++ pattern ++ pyQuote⟩
  | none =>
    match rocket_patterns.find? (fun p => containsSub p name_upper) with
    | some pattern =>
      ⟨"rocket_body", 0.90, ⟨0.05, 0.90, 0.05⟩, "Nombre contiene " ++ pyQuote ++ pattern ++ pyQuote⟩
    | none =>
      match payload_patterns.find? (fun p => containsSub p name_upper) with
      | some pattern =>
        ⟨"payload", 0.92, ⟨0.92, 0.05, 0.03⟩, "Constelación conocida: " ++ pattern⟩
      | none =>
        if altitude_km < 300 then
          ⟨"debris", 0.70, ⟨0.15, 0.15, 0.70⟩,
            "Altitud muy baja (<300km) - posible decaimiento"⟩
        else if 300 ≤ altitude_km ∧ altitude_km < 600 then
          ⟨"payload", 0.65, ⟨0.65, 0.20, 0.15⟩,
            "Altitud típica de payloads LEO (300-600km)"⟩
        else if 600 ≤ altitude_km ∧ altitude_km < 1000 then
          ⟨"payload", 0.55, ⟨0.55, 0.25, 0.20⟩,
            "Altitud LEO media - probablemente payload"⟩
        else if 1000 ≤ altitude_km ∧ altitude_km < 2000 then
          ⟨"debris", 0.50, ⟨0.30, 0.20, 0.50⟩,
            "LEO alta (1000-2000km) - zona con mucho debris"⟩
        else if 35000 ≤ altitude_km ∧ altitude_km < 36500 then
          ⟨"payload", 0.85, ⟨0.85, 0.10, 0.05⟩,
            "Órbita GEO - típicamente satélites de comunicaciones"⟩
        else
          ⟨"unknown", 0.40, ⟨0.40, 0.30, 0.30⟩,
            "Órbita atípica - clasificación incierta"⟩

/-- Days before January 1 of a year in the proleptic Gregorian calendar, so
that Python datetime(y,1,1).toordinal() equals daysBeforeYear y + 1. -/
def daysBeforeYear (y : ℤ) : ℤ :=
  365 * (y - 1) + (y - 1).fdiv 4 - (y - 1).fdiv 100 + (y - 1).fdiv 400

/-- Python toordinal of January 1 of a year. -/
def jan1Ordinal (y : ℤ) : ℤ := daysBeforeYear y + 1

/-- Largest ordinal representable by Python datetime (9999-12-31). -/
def maxOrdinal : ℤ := 3652059

/-- Body of the try block of parse_tle_epoch: the epoch timestamp in days
(integer part is the Python date ordinal, fractional part the time of day),
or none when the block raises — a ValueError from int()/float() on the
sliced field, or an OverflowError when the datetime-plus-timedelta result
leaves the representable datetime range. -/
def epochOfLine1 (line1 : String) : Option ℚ :=
  let epoch_str := pyStripChars (pySlice line1 18 32)
  match pyIntL (epoch_str.take 2) with
  | none => none
  | some year_2d =>
    match pyFloatL (epoch_str.drop 2) with
    | none => none
    | some day_decimal =>
      let year : ℤ := if 57 ≤ year_2d then 1900 + year_2d else 2000 + year_2d
      let t : ℚ := (jan1Ordinal year : ℚ) + (day_decimal - 1)
      if 1 ≤ ⌊t⌋ ∧ ⌊t⌋ ≤ maxOrdinal then some t else none

/-- parse_tle_epoch from backend/main.py; now is the current UTC time,
returned as the fallback when the try block raises. -/
def parse_tle_epoch (line1 : String) (now : ℚ) : ℚ :=
  match epochOfLine1 line1 with
  | some t => t
  | none => now

/-- Body of the try block of parse_tle_epoch_simple (identical computation
with the year pivot conditional written the other way round). -/
def epochOfLine1Simple (line1 : String) : Option ℚ :=
  let epoch_str := pyStripChars (pySlice line1 18 32)
  match pyIntL (epoch_str.take 2) with
  | none => none
  | some year_2d =>
    match pyFloatL (epoch_str.drop 2) with
    | none => none
    | some day_decimal =>
      let year : ℤ := if year_2d < 57 then 2000 + year_2d else 1900 + year_2d
      let t : ℚ := (jan1Ordinal year : ℚ) + (day_decimal - 1)
      if 1 ≤ ⌊t⌋ ∧ ⌊t⌋ ≤ maxOrdinal then some t else none

/-- parse_tle_epoch_simple from backend/main.py. -/
def parse_tle_epoch_simple (line1 : String) (now : ℚ) : ℚ :=
  match epochOfLine1Simple line1 with
  | some t => t
  | none => now

/-- Result of calculate_tle_age. -/
structure TleAgeResult where
  age_hours : ℚ
  age_days : ℚ
  is_stale : Bool
  warning : Option String
deriving DecidableEq

/-- Severe staleness warning text (age over 7 days). -/
def warnVeryOld (d : ℚ) : String :=
  "⚠️ TLE muy viejo (" ++ fmt1 d ++ " días). Posición MUY poco confiable."

/-- Moderate staleness warning text (age over 3 days). -/
def warnOld (d : ℚ) : String :=
  "⚠️ TLE viejo (" ++ fmt1 d ++ " días). Posición poco confiable."

/-- Soft advisory text (age over 24 hours). -/
def warnConsider (d : ℚ) : String :=
  "TLE de " ++ fmt1 d ++ " días. Considere actualizar."

/-- calculate_tle_age from backend/main.py.  Timestamps are day counts, so
total_seconds()/3600 becomes multiplication by 24. -/
def calculate_tle_age (epoch now : ℚ) : TleAgeResult :=
  let age_hours : ℚ := (now - epoch) * 24
  let age_days : ℚ := age_hours / 24
  let is_stale : Bool := decide (age_days > 3)
  let warning : Option String :=
    if age_days > 7 then some (warnVeryOld age_days)
    else if age_days > 3 then some (warnOld age_days)
    else if age_hours > 24 then some (warnConsider age_days)
    else none
  ⟨age_hours, age_days, is_stale, warning⟩

/-- parse_tle_mean_motion from backend/main.py: float(line2[52:63].strip())
with the literal fallback 15.0 on a ValueError. -/
def parse_tle_mean_motion (line2 : String) : ℚ :=
  match pyFloatL (pyStripChars (pySlice line2 52 63)) with
  | some v => v
  | none => 15

/-- Earth gravitational parameter constant of calculate_orbital_params. -/
noncomputable def MU : ℝ := 398600.4418

/-- Earth mean radius constant of calculate_orbital_params. -/
noncomputable def R_EARTH : ℝ := 6371.0

/-- Semi-major axis computed by calculate_orbital_params:
(MU * (period_sec / (2 π)) ** 2) ** (1/3) with period_sec = 86400 / n. -/
noncomputable def semiMajorAxis (mean_motion : ℝ) : ℝ :=
  (MU * (86400.0 / mean_motion / (2 * Real.pi)) ^ 2) ^ ((1 : ℝ) / 3)

/-- Orbital-region ladder of calculate_orbital_params. -/
noncomputable def regionOf (altitude_km : ℝ) : String :=
  if altitude_km < 2000 then "LEO"
  else if altitude_km < 35786 then "MEO"
  else "GEO"

/-- Uncaught Python exceptions the predict handler can raise. -/
inductive PyErr
  | typeError
  | zeroDivisionError
deriving DecidableEq

/-- calculate_orbital_params from backend/main.py.  In the exact-real model
the only raising statement of the body is the division 86400.0 /
mean_motion, a ZeroDivisionError when the mean motion is exactly zero;
otherwise the function returns altitude, circular velocity and region.  The
double-precision source has two further raising paths with no counterpart
here: (period_sec / (2 * pi)) ** 2 overflows for tiny nonzero mean motions
(magnitude below roughly 10^-150), and an infinite mean motion drives the
semi-major axis to 0.0 so that math.sqrt(MU / a) raises ZeroDivisionError.
Claims about the absence of exceptions therefore carry explicit
magnitude-and-grammar hypotheses confining them to the float-safe domain. -/
noncomputable def calculate_orbital_params (mean_motion : ℝ) :
    Except PyErr (ℝ × ℝ × String) :=
  if mean_motion = 0 then .error .zeroDivisionError
  else
    let a := semiMajorAxis mean_motion
    let altitude_km := a - R_EARTH
    let velocity_kms := Real.sqrt (MU / a)
    .ok (altitude_km, velocity_kms, regionOf altitude_km)

/-- Cartesian vector in km or km/s. -/
structure Vec3 where
  x : ℝ
  y : ℝ
  z : ℝ

/-- PropagationData response block; calculated_at holds the timestamp the
Python code serialises as an ISO string. -/
structure PropagationData where
  position_km : Vec3
  velocity_kms : Vec3
  calculated_at : ℚ

/-- OrbitalStats response block. -/
structure OrbitalStats where
  altitude_km : ℝ
  velocity_kms : ℝ

/-- TleInfo response block; epoch holds the timestamp the Python code
serialises as an ISO string. -/
structure TleInfo where
  epoch : ℚ
  age_hours : ℚ
  age_days : ℚ
  is_stale : Bool
  warning : Option String

/-- Feature snapshot of the response. -/
structure Features where
  mean_motion : ℚ
  altitude_km : ℝ
  tle_age_days : ℚ

/-- Metadata response block. -/
structure Metadata where
  model_version : String
  processing_time_ms : ℝ

/-- PredictRequest schema: threshold is Optional[float] with default 0.6, so
a caller can supply null and make the field None. -/
structure PredictRequest where
  id : ℤ
  line1 : String
  line2 : String
  satellite_name : Option String := none
  threshold : Option ℝ := some 0.6

/-- PredictResponse schema. -/
structure PredictResponse where
  object_id : ℤ
  satellite_name : Option String
  predicted_class : String
  classification_reason : String
  orbital_stats : OrbitalStats
  confidence : ℝ
  region : String
  proba : Proba ℝ
  tle_info : TleInfo
  propagation : Option PropagationData
  features : Features
  metadata : Metadata

/-- Outcome of the external SGP4 call (Satrec.twoline2rv followed by
satellite.sgp4 at the current Julian date): Except.error when the call
raises, otherwise the integer error code with the raw position (km) and
velocity (km/s) vectors.  The propagator is the external black box of the
spec, so its outcome enters the model as a parameter. -/
abbrev SgpOutcome := Except Unit (ℤ × Vec3 × Vec3)

/-- propagate_sgp4 from backend/main.py over the externalised SGP4 outcome:
an exception or a nonzero error code yields None, success yields the
position rounded to 3 decimals, the velocity rounded to 6 decimals and the
calculation timestamp. -/
noncomputable def propagate_sgp4 (orc : SgpOutcome) (now : ℚ) :
    Option PropagationData :=
  match orc with
  | .error _ => none
  | .ok (error, position, velocity) =>
    if error ≠ 0 then none
    else
      some
        { position_km := ⟨roundTo position.x 3, roundTo position.y 3, roundTo position.z 3⟩
          velocity_kms := ⟨roundTo velocity.x 6, roundTo velocity.y 6, roundTo velocity.z 6⟩
          calculated_at := now }

/-- Reason string installed by the threshold override of predict. -/
noncomputable def overrideMsg (confidence threshold : ℝ) : String :=
  "Confianza (" ++ pct0 confidence ++ ") menor al umbral (" ++ pct0 threshold ++ ")"

/-- Altitude fed to the classifier by predict: the propagated altitude
(position magnitude minus 6371.0) when propagation succeeded, otherwise the
two-body approximation altitude. -/
noncomputable def altitude_used (req : PredictRequest) (orc : SgpOutcome) (now : ℚ) : ℝ :=
  match propagate_sgp4 orc now with
  | some prop =>
    Real.sqrt (prop.position_km.x ^ 2 + prop.position_km.y ^ 2 + prop.position_km.z ^ 2)
      - 6371.0
  | none => semiMajorAxis ((parse_tle_mean_motion req.line2 : ℚ) : ℝ) - R_EARTH

/-- predict from backend/main.py (the POST /predict handler).  The external
SGP4 outcome, the wall-clock time and the measured processing time enter as
parameters.  The two ways the Python handler can raise — ZeroDivisionError
from 86400.0 / mean_motion and TypeError from comparing a float confidence
with a None threshold — surface as Except.error; every other path returns a
response. -/
noncomputable def predict (req : PredictRequest) (orc : SgpOutcome) (now : ℚ)
    (elapsed_ms : ℝ) : Except PyErr PredictResponse :=
  let epoch := parse_tle_epoch req.line1 now
  let age := calculate_tle_age epoch now
  let tle_info : TleInfo :=
    ⟨epoch, roundTo age.age_hours 2, roundTo age.age_days 2, age.is_stale, age.warning⟩
  let propagation := propagate_sgp4 orc now
  let mean_motion : ℚ := parse_tle_mean_motion req.line2
  match calculate_orbital_params (mean_motion : ℝ) with
  | .error e => .error e
  | .ok (altitude0, velocity_kms, region) =>
    let altitude_km : ℝ :=
      match propagation with
      | some prop =>
        Real.sqrt (prop.position_km.x ^ 2 + prop.position_km.y ^ 2 + prop.position_km.z ^ 2)
          - 6371.0
      | none => altitude0
    let c := classify_object (req.satellite_name.getD ("")) altitude_km
    match req.threshold with
    | none => .error .typeError
    | some threshold =>
      let final :=
        if c.confidence < threshold then ("unknown", overrideMsg c.confidence threshold)
        else (c.cls, c.reason)
      .ok
        { object_id := req.id
          satellite_name := req.satellite_name
          predicted_class := final.1
          classification_reason := final.2
          orbital_stats := ⟨roundTo altitude_km 2, roundTo velocity_kms 3⟩
          confidence := roundTo c.confidence 4
          region := region
          proba := ⟨roundTo c.proba.payload 4, roundTo c.proba.rocket_body 4,
                    roundTo c.proba.debris 4⟩
          tle_info := tle_info
          propagation := propagation
          features := ⟨roundTo mean_motion 6, roundTo altitude_km 2, roundTo age.age_days 2⟩
          metadata := ⟨"heuristic-v1.0", roundTo elapsed_ms 2⟩ }

/-- Exemplar line 2 whose mean-motion field (columns 53–63) reads 15.5. -/
def exLine2A : String := "                                                    15.5"

/-- Exemplar line 2 whose mean-motion field reads 15.0. -/
def exLine2B : String := "                                                    15.0"

/-- Exemplar line 2 whose mean-motion field reads 0.0 (parses to zero). -/
def exLine2Zero : String := "                                                    0.0"

/-- Exemplar line 1 with epoch field 24001.00000000 (2024 day 1.0). -/
def exLine1Day1 : String := "1 25544U 98067A   24001.00000000  .00016717  00000+0  10270-3 0  9005"

/-- Exemplar line 1 with epoch field 24001.50000000 (2024 day 1.5). -/
def exLine1Day15 : String := "1 25544U 98067A   24001.50000000  .00016717  00000+0  10270-3 0  9005"

/-- Exemplar request with mean motion 15.5 and the default threshold. -/
noncomputable def exReq : PredictRequest := ⟨1, exLine1Day1, exLine2A, none, some 0.6⟩

/-- Exemplar request whose mean-motion field parses to zero. -/
noncomputable def exReqZero : PredictRequest := ⟨2, exLine1Day1, exLine2Zero, none, some 0.6⟩

/-- Exemplar request with mean motion 15.0. -/
noncomputable def exReq15 : PredictRequest := ⟨3, exLine1Day1, exLine2B, none, some 0.6⟩

/-- Exemplar SGP4 outcome: the call raised. -/
def exOrcRaise : SgpOutcome := .error ()

/-- Exemplar SGP4 outcome: success with a distant position on the x axis. -/
noncomputable def exOrcGeo : SgpOutcome := .ok (0, ⟨50000, 0, 0⟩, ⟨0, 0, 0⟩)


/-- Soundness and completeness of the substring test with respect to the
mathematical infix relation. -/
theorem containsSubL_iff (p s : List Char) : containsSubL p s = true ↔ p <:+: s := by
  induction s with
  | nil =>
    simp [containsSubL,  List.isPrefixOf_iff_prefix]
  | cons c rest ih =>
    simp [containsSubL, ih,  List.isPrefixOf_iff_prefix, List.infix_cons_iff]

/-- Any occurrence of a superstring yields an occurrence of its substring. -/
theorem containsSubL_of_infix {q p s : List Char} (h1 : q <:+: p)
    (h2 : containsSubL p s = true) : containsSubL q s = true :=
  (containsSubL_iff q s).mpr (h1.trans ((containsSubL_iff p s).mp h2))

/-- Half-even rounding fixes integers. -/
theorem rhe_intCast {α : Type} [LinearOrderedField α] [FloorRing α] (m : ℤ) :
    rhe ((m : α)) = m := by
  simp only [rhe, Int.floor_intCast, sub_self]
  rw [if_pos (by norm_num : (0 : α) < 1 / 2)]

/-- Python round(x, n) fixes numbers already expressible with n decimals. -/
theorem roundTo_self {α : Type} [LinearOrderedField α] [FloorRing α]
    (x : α) (n : ℕ) (m : ℤ) (h : x * 10 ^ n = (m : α)) : roundTo x n = x := by
  unfold roundTo
  rw [h, rhe_intCast, eq_comm, eq_div_iff (by positivity : (10 : α) ^ n ≠ 0)]
  exact h

/-- C2: name-pattern classification is case-insensitive substring matching
over the full name (the result depends on the name only through its
upper-cased form), and the rule groups fire in the fixed order debris
(0.95), then rocket-body (0.90), then known-constellation payload (0.92),
first match winning: any debris marker — in particular alongside a payload
marker — yields debris @0.95; with no debris marker a rocket marker yields
rocket_body @0.90 even alongside a payload marker; and only with neither
does a payload marker yield payload @0.92. -/
theorem claimC2 :
    (∀ (na nb : String) (alt : ℚ), pyUpper na = pyUpper nb →
      classify_object na alt = classify_object nb alt) ∧
    (∀ (name : String) (alt : ℚ),
      (∃ p ∈ debris_patterns, containsSub p (pyUpper name) = true) →
      (classify_object name alt).cls = "debris" ∧
      (classify_object name alt).confidence = (0.95 : ℚ)) ∧
    (∀ (name : String) (alt : ℚ),
      (∀ p ∈ debris_patterns, containsSub p (pyUpper name) = false) →
      (∃ p ∈ rocket_patterns, containsSub p (pyUpper name) = true) →
      (classify_object name alt).cls = "rocket_body" ∧
      (classify_object name alt).confidence = (0.90 : ℚ)) ∧
    (∀ (name : String) (alt : ℚ),
      (∀ p ∈ debris_patterns, containsSub p (pyUpper name) = false) →
      (∀ p ∈ rocket_patterns, containsSub p (pyUpper name) = false) →
      (∃ p ∈ payload_patterns, containsSub p (pyUpper name) = true) →
      (classify_object name alt).cls = "payload" ∧
      (classify_object name alt).confidence = (0.92 : ℚ)) := by
  refine ⟨?_, ?_, ?_, ?_⟩
  · intro na nb alt h
    simp only [classify_object, h]
  · intro name alt hex
    obtain ⟨p, hp, hc⟩ := hex
    have hsome : (debris_patterns.find? (fun q => containsSub q (pyUpper name))).isSome :=
      List.find?_isSome.mpr ⟨p, hp, hc⟩
    obtain ⟨q, hq⟩ := Option.isSome_iff_exists.mp hsome
    constructor
    · simp only [classify_object, hq]
    · simp only [classify_object, hq]
  · intro name alt hdeb hex
    have hdn : debris_patterns.find? (fun q => containsSub q (pyUpper name)) = none :=
      List.find?_eq_none.mpr (fun x hx => by simp [hdeb x hx])
    obtain ⟨p, hp, hc⟩ := hex
    have hsome : (rocket_patterns.find? (fun q => containsSub q (pyUpper name))).isSome :=
      List.find?_isSome.mpr ⟨p, hp, hc⟩
    obtain ⟨q, hq⟩ := Option.isSome_iff_exists.mp hsome
    constructor
    · simp only [classify_object, hdn, hq]
    · simp only [classify_object, hdn, hq]
  · intro name alt hdeb hrkt hex
    have hdn : debris_patterns.find? (fun q => containsSub q (pyUpper name)) = none :=
      List.find?_eq_none.mpr (fun x hx => by simp [hdeb x hx])
    have hrn : rocket_patterns.find? (fun q => containsSub q (pyUpper name)) = none :=
      List.find?_eq_none.mpr (fun x hx => by simp [hrkt x hx])
    obtain ⟨p, hp, hc⟩ := hex
    have hsome : (payload_patterns.find? (fun q => containsSub q (pyUpper name))).isSome :=
      List.find?_isSome.mpr ⟨p, hp, hc⟩
    obtain ⟨q, hq⟩ := Option.isSome_iff_exists.mp hsome
    constructor
    · simp only [classify_object, hdn, hrn, hq]
    · simp only [classify_object, hdn, hrn, hq]

/-- Witness for C2: a name carrying both a debris and a payload marker
classifies as debris; one carrying both a rocket and a payload marker but no
debris marker classifies as rocket_body; one carrying only a payload marker
classifies as payload. -/
theorem claimC2_witness :
    pyUpper ("Cosmos 2251 deb") = pyUpper ("COSMOS 2251 DEB") ∧
    classify_object ("Cosmos 2251 deb") (500 : ℚ) =
      classify_object ("COSMOS 2251 DEB") (500 : ℚ) ∧
    (∃ p ∈ debris_patterns, containsSub p (pyUpper ("Cosmos 2251 deb")) = true) ∧
    (classify_object ("Cosmos 2251 deb") (500 : ℚ)).cls = "debris" ∧
    (classify_object ("Cosmos 2251 deb") (500 : ℚ)).confidence = (0.95 : ℚ) ∧
    (∃ p ∈ rocket_patterns, containsSub p (pyUpper ("GPS BIIA-10 R/B")) = true) ∧
    (∃ p ∈ payload_patterns, containsSub p (pyUpper ("GPS BIIA-10 R/B")) = true) ∧
    (classify_object ("GPS BIIA-10 R/B") (500 : ℚ)).cls = "rocket_body" ∧
    (classify_object ("GPS BIIA-10 R/B") (500 : ℚ)).confidence = (0.90 : ℚ) ∧
    (classify_object ("Starlink-1234") (500 : ℚ)).cls = "payload" ∧
    (classify_object ("Starlink-1234") (500 : ℚ)).confidence = (0.92 : ℚ) :=
  ⟨by decide,
   claimC2.1 _ _ 500 (by decide),
   by decide,
   (claimC2.2.1 _ 500 (by decide)).1,
   (claimC2.2.1 _ 500 (by decide)).2,
   by decide,
   by decide,
   (claimC2.2.2.1 _ 500 (by decide) (by decide)).1,
   (claimC2.2.2.1 _ 500 (by decide) (by decide)).2,
   (claimC2.2.2.2 _ 500 (by decide) (by decide) (by decide)).1,
   (claimC2.2.2.2 _ 500 (by decide) (by decide) (by decide)).2⟩

/-- C10: every debris marker contains the substring DEB, and DEB is the
first pattern tried, so whenever any debris marker occurs in the upper-cased
name the returned reason always cites the pattern DEB. -/
theorem claimC10 : ∀ (name : String) (alt : ℚ),
    (∃ p ∈ debris_patterns, containsSub p (pyUpper name) = true) →
    classify_object name alt =
      ⟨"debris", 0.95, ⟨0.02, 0.03, 0.95⟩,
        "Nombre contiene " ++ pyQuote ++ "DEB" ++ pyQuote⟩ := by
  intro name alt hex
  obtain ⟨p, hp, hc⟩ := hex
  have hinf : containsSubL ("DEB").data p.data = true := by
    fin_cases hp <;> decide
  have hdeb : containsSub ("DEB") (pyUpper name) = true :=
    containsSubL_of_infix ((containsSubL_iff _ _).mp hinf) hc
  have hfind : debris_patterns.find? (fun q => containsSub q (pyUpper name)) =
      some ("DEB") := by
    simp only [debris_patterns]
    rw [List.find?_cons_of_pos _ (by simpa using hdeb)]
  simp only [classify_object, hfind]

/-- Witness for C10 at a name whose only debris marker is the slash form. -/
theorem claimC10_witness :
    (∃ p ∈ debris_patterns, containsSub p (pyUpper ("sl-16/deb")) = true) ∧
    classify_object ("sl-16/deb") (800 : ℚ) =
      ⟨"debris", 0.95, ⟨0.02, 0.03, 0.95⟩,
        "Nombre contiene " ++ pyQuote ++ "DEB" ++ pyQuote⟩ :=
  ⟨by decide, claimC10 _ 800 (by decide)⟩

/-- With an empty name, no pattern matches and classify_object reduces to
the altitude ladder (definitional unfolding of the source cascade). -/
theorem classify_empty_eq (alt : ℚ) : classify_object ("") alt =
    (if alt < 300 then
      ⟨"debris", 0.70, ⟨0.15, 0.15, 0.70⟩, "Altitud muy baja (<300km) - posible decaimiento"⟩
    else if 300 ≤ alt ∧ alt < 600 then
      ⟨"payload", 0.65, ⟨0.65, 0.20, 0.15⟩, "Altitud típica de payloads LEO (300-600km)"⟩
    else if 600 ≤ alt ∧ alt < 1000 then
      ⟨"payload", 0.55, ⟨0.55, 0.25, 0.20⟩, "Altitud LEO media - probablemente payload"⟩
    else if 1000 ≤ alt ∧ alt < 2000 then
      ⟨"debris", 0.50, ⟨0.30, 0.20, 0.50⟩, "LEO alta (1000-2000km) - zona con mucho debris"⟩
    else if 35000 ≤ alt ∧ alt < 36500 then
      ⟨"payload", 0.85, ⟨0.85, 0.10, 0.05⟩, "Órbita GEO - típicamente satélites de comunicaciones"⟩
    else
      (⟨"unknown", 0.40, ⟨0.40, 0.30, 0.30⟩, "Órbita atípica - clasificación incierta"⟩ :
        ClassifyResult ℚ)) := rfl

/-- C3: with no name pattern matched the altitude fallback is total and
disjoint — every rational altitude lands in exactly one of the six
documented outcomes, the catch-all taking the 2000–35000 gap and
everything at or above 36500. -/
theorem claimC3 : ∀ alt : ℚ,
    (alt < 300 → classify_object ("") alt =
      ⟨"debris", 0.70, ⟨0.15, 0.15, 0.70⟩, "Altitud muy baja (<300km) - posible decaimiento"⟩) ∧
    (300 ≤ alt ∧ alt < 600 → classify_object ("") alt =
      ⟨"payload", 0.65, ⟨0.65, 0.20, 0.15⟩, "Altitud típica de payloads LEO (300-600km)"⟩) ∧
    (600 ≤ alt ∧ alt < 1000 → classify_object ("") alt =
      ⟨"payload", 0.55, ⟨0.55, 0.25, 0.20⟩, "Altitud LEO media - probablemente payload"⟩) ∧
    (1000 ≤ alt ∧ alt < 2000 → classify_object ("") alt =
      ⟨"debris", 0.50, ⟨0.30, 0.20, 0.50⟩, "LEO alta (1000-2000km) - zona con mucho debris"⟩) ∧
    (35000 ≤ alt ∧ alt < 36500 → classify_object ("") alt =
      ⟨"payload", 0.85, ⟨0.85, 0.10, 0.05⟩, "Órbita GEO - típicamente satélites de comunicaciones"⟩) ∧
    ((2000 ≤ alt ∧ alt < 35000) ∨ 36500 ≤ alt → classify_object ("") alt =
      ⟨"unknown", 0.40, ⟨0.40, 0.30, 0.30⟩, "Órbita atípica - clasificación incierta"⟩) := by
  intro alt
  have e := classify_empty_eq alt
  refine ⟨fun h => ?_, fun h => ?_, fun h => ?_, fun h => ?_, fun h => ?_, fun h => ?_⟩
  · rw [e, if_pos h]
  · rw [e, if_neg (fun hx => by linarith [h.1, h.2]), if_pos h]
  · rw [e, if_neg (fun hx => by linarith [h.1, h.2]),
      if_neg (fun hx => by linarith [h.1, hx.2]), if_pos h]
  · rw [e, if_neg (fun hx => by linarith [h.1, h.2]),
      if_neg (fun hx => by linarith [h.1, hx.2]),
      if_neg (fun hx => by linarith [h.1, hx.2]), if_pos h]
  · rw [e, if_neg (fun hx => by linarith [h.1, h.2]),
      if_neg (fun hx => by linarith [h.1, hx.2]),
      if_neg (fun hx => by linarith [h.1, hx.2]),
      if_neg (fun hx => by linarith [h.1, hx.2]), if_pos h]
  · rcases h with ⟨ha, hb⟩ | hc
    · rw [e, if_neg (fun hx => by linarith),
        if_neg (fun hx => by linarith [hx.2]),
        if_neg (fun hx => by linarith [hx.2]),
        if_neg (fun hx => by linarith [hx.2]),
        if_neg (fun hx => by linarith [hx.1])]
    · rw [e, if_neg (fun hx => by linarith),
        if_neg (fun hx => by linarith [hx.2]),
        if_neg (fun hx => by linarith [hx.2]),
        if_neg (fun hx => by linarith [hx.2]),
        if_neg (fun hx => by linarith [hx.2])]

/-- Witness for C3 at a low altitude and at a gap altitude. -/
theorem claimC3_witness :
    ((150 : ℚ) < 300 ∧ classify_object ("") (150 : ℚ) =
      ⟨"debris", 0.70, ⟨0.15, 0.15, 0.70⟩, "Altitud muy baja (<300km) - posible decaimiento"⟩) ∧
    (((2000 : ℚ) ≤ 20000 ∧ (20000 : ℚ) < 35000) ∧ classify_object ("") (20000 : ℚ) =
      ⟨"unknown", 0.40, ⟨0.40, 0.30, 0.30⟩, "Órbita atípica - clasificación incierta"⟩) :=
  ⟨⟨by norm_num, (claimC3 150).1 (by norm_num)⟩,
   ⟨by norm_num, (claimC3 20000).2.2.2.2.2 (Or.inl (by norm_num))⟩⟩

/-- Every confidence and probability produced by the cascade has at most two
decimals, so the 4-decimal rounding applied when assembling the response
returns them unchanged. -/
theorem classify_round4 (name : String) (alt : ℝ) :
    roundTo (classify_object name alt).confidence 4 = (classify_object name alt).confidence ∧
    roundTo (classify_object name alt).proba.payload 4 =
      (classify_object name alt).proba.payload ∧
    roundTo (classify_object name alt).proba.rocket_body 4 =
      (classify_object name alt).proba.rocket_body ∧
    roundTo (classify_object name alt).proba.debris 4 =
      (classify_object name alt).proba.debris := by
  cases hd : debris_patterns.find? (fun p => containsSub p (pyUpper name)) with
  | some p =>
    simp only [classify_object, hd]
    exact ⟨roundTo_self _ _ 9500 (by norm_num), roundTo_self _ _ 200 (by norm_num),
           roundTo_self _ _ 300 (by norm_num), roundTo_self _ _ 9500 (by norm_num)⟩
  | none =>
    cases hr : rocket_patterns.find? (fun p => containsSub p (pyUpper name)) with
    | some p =>
      simp only [classify_object, hd, hr]
      exact ⟨roundTo_self _ _ 9000 (by norm_num), roundTo_self _ _ 500 (by norm_num),
             roundTo_self _ _ 9000 (by norm_num), roundTo_self _ _ 500 (by norm_num)⟩
    | none =>
      cases hp : payload_patterns.find? (fun p => containsSub p (pyUpper name)) with
      | some p =>
        simp only [classify_object, hd, hr, hp]
        exact ⟨roundTo_self _ _ 9200 (by norm_num), roundTo_self _ _ 9200 (by norm_num),
               roundTo_self _ _ 500 (by norm_num), roundTo_self _ _ 300 (by norm_num)⟩
      | none =>
        simp only [classify_object, hd, hr, hp]
        split_ifs
        · exact ⟨roundTo_self _ _ 7000 (by norm_num), roundTo_self _ _ 1500 (by norm_num),
                 roundTo_self _ _ 1500 (by norm_num), roundTo_self _ _ 7000 (by norm_num)⟩
        · exact ⟨roundTo_self _ _ 6500 (by norm_num), roundTo_self _ _ 6500 (by norm_num),
                 roundTo_self _ _ 2000 (by norm_num), roundTo_self _ _ 1500 (by norm_num)⟩
        · exact ⟨roundTo_self _ _ 5500 (by norm_num), roundTo_self _ _ 5500 (by norm_num),
                 roundTo_self _ _ 2500 (by norm_num), roundTo_self _ _ 2000 (by norm_num)⟩
        · exact ⟨roundTo_self _ _ 5000 (by norm_num), roundTo_self _ _ 3000 (by norm_num),
                 roundTo_self _ _ 2000 (by norm_num), roundTo_self _ _ 5000 (by norm_num)⟩
        · exact ⟨roundTo_self _ _ 8500 (by norm_num), roundTo_self _ _ 8500 (by norm_num),
                 roundTo_self _ _ 1000 (by norm_num), roundTo_self _ _ 500 (by norm_num)⟩
        · exact ⟨roundTo_self _ _ 4000 (by norm_num), roundTo_self _ _ 4000 (by norm_num),
                 roundTo_self _ _ 3000 (by norm_num), roundTo_self _ _ 3000 (by norm_num)⟩

/-- Success-path normal form of predict: with a numeric threshold and a
nonzero parsed mean motion the handler returns the fully assembled
response.  The proof follows the source control flow: the
calculate_orbital_params call succeeds, the propagation match selects the
altitude fed to the classifier, and the threshold comparison picks the final
class/reason pair. -/
theorem predict_ok (req : PredictRequest) (orc : SgpOutcome) (now : ℚ)
    (elapsed_ms t : ℝ) (h1 : req.threshold = some t)
    (h2 : parse_tle_mean_motion req.line2 ≠ 0) :
    predict req orc now elapsed_ms = .ok
      { object_id := req.id
        satellite_name := req.satellite_name
        predicted_class :=
          if (classify_object (req.satellite_name.getD (""))
              (altitude_used req orc now)).confidence < t
          then "unknown"
          else (classify_object (req.satellite_name.getD (""))
              (altitude_used req orc now)).cls
        classification_reason :=
          if (classify_object (req.satellite_name.getD (""))
              (altitude_used req orc now)).confidence < t
          then overrideMsg (classify_object (req.satellite_name.getD (""))
              (altitude_used req orc now)).confidence t
          else (classify_object (req.satellite_name.getD (""))
              (altitude_used req orc now)).reason
        orbital_stats :=
          ⟨roundTo (altitude_used req orc now) 2,
           roundTo (Real.sqrt (MU /
             semiMajorAxis ((parse_tle_mean_motion req.line2 : ℚ) : ℝ))) 3⟩
        confidence := roundTo (classify_object (req.satellite_name.getD (""))
            (altitude_used req orc now)).confidence 4
        region := regionOf
          (semiMajorAxis ((parse_tle_mean_motion req.line2 : ℚ) : ℝ) - R_EARTH)
        proba :=
          ⟨roundTo (classify_object (req.satellite_name.getD (""))
              (altitude_used req orc now)).proba.payload 4,
           roundTo (classify_object (req.satellite_name.getD (""))
              (altitude_used req orc now)).proba.rocket_body 4,
           roundTo (classify_object (req.satellite_name.getD (""))
              (altitude_used req orc now)).proba.debris 4⟩
        tle_info :=
          ⟨parse_tle_epoch req.line1 now,
           roundTo (calculate_tle_age (parse_tle_epoch req.line1 now) now).age_hours 2,
           roundTo (calculate_tle_age (parse_tle_epoch req.line1 now) now).age_days 2,
           (calculate_tle_age (parse_tle_epoch req.line1 now) now).is_stale,
           (calculate_tle_age (parse_tle_epoch req.line1 now) now).warning⟩
        propagation := propagate_sgp4 orc now
        features :=
          ⟨roundTo (parse_tle_mean_motion req.line2) 6,
           roundTo (altitude_used req orc now) 2,
           roundTo (calculate_tle_age (parse_tle_epoch req.line1 now) now).age_days 2⟩
        metadata := ⟨"heuristic-v1.0", roundTo elapsed_ms 2⟩ } := by
  have hmmR : ((parse_tle_mean_motion req.line2 : ℚ) : ℝ) ≠ 0 := by exact_mod_cast h2
  have hcop : calculate_orbital_params ((parse_tle_mean_motion req.line2 : ℚ) : ℝ) =
      .ok (semiMajorAxis ((parse_tle_mean_motion req.line2 : ℚ) : ℝ) - R_EARTH,
           Real.sqrt (MU / semiMajorAxis ((parse_tle_mean_motion req.line2 : ℚ) : ℝ)),
           regionOf (semiMajorAxis ((parse_tle_mean_motion req.line2 : ℚ) : ℝ) - R_EARTH)) := by
    simp only [calculate_orbital_params, if_neg hmmR]
  have halt : altitude_used req orc now =
      (match propagate_sgp4 orc now with
       | some prop =>
         Real.sqrt (prop.position_km.x ^ 2 + prop.position_km.y ^ 2 + prop.position_km.z ^ 2)
           - 6371.0
       | none => semiMajorAxis ((parse_tle_mean_motion req.line2 : ℚ) : ℝ) - R_EARTH) := rfl
  simp only [predict, hcop, h1]
  rw [halt]
  by_cases hcf : (classify_object (req.satellite_name.getD (""))
      (match propagate_sgp4 orc now with
       | some prop =>
         Real.sqrt (prop.position_km.x ^ 2 + prop.position_km.y ^ 2 + prop.position_km.z ^ 2)
           - 6371.0
       | none => semiMajorAxis ((parse_tle_mean_motion req.line2 : ℚ) : ℝ) - R_EARTH)).confidence < t
  · simp only [if_pos hcf]
  · simp only [if_neg hcf]

/-- Evaluation: the exemplar mean-motion field 15.5 parses to 31/2. -/
theorem exLine2A_eval : parse_tle_mean_motion exLine2A = 31 / 2 := by
  rw [show parse_tle_mean_motion exLine2A =
      ((15 : ℕ) : ℚ) + ((5 : ℕ) : ℚ) / 10 ^ (1 : ℕ) from rfl]
  norm_num

/-- Evaluation: the exemplar mean-motion field 15.0 parses to 15. -/
theorem exLine2B_eval : parse_tle_mean_motion exLine2B = 15 := by
  rw [show parse_tle_mean_motion exLine2B =
      ((15 : ℕ) : ℚ) + ((0 : ℕ) : ℚ) / 10 ^ (1 : ℕ) from rfl]
  norm_num

/-- Evaluation: the exemplar mean-motion field 0.0 parses to exactly zero. -/
theorem exLine2Zero_eval : parse_tle_mean_motion exLine2Zero = 0 := by
  rw [show parse_tle_mean_motion exLine2Zero =
      ((0 : ℕ) : ℚ) + ((0 : ℕ) : ℚ) / 10 ^ (1 : ℕ) from rfl]
  norm_num

/-- Evaluation: epoch field 24001.00000000 yields ordinal 738886, the Python
toordinal of 2024-01-01, with zero time of day. -/
theorem epochDay1_eval : epochOfLine1 exLine1Day1 = some 738886 := by
  have h1 : pyIntL ((pyStripChars (pySlice exLine1Day1 18 32)).take 2) = some 24 := by decide
  have h2 : pyFloatL ((pyStripChars (pySlice exLine1Day1 18 32)).drop 2) =
      some (((1 : ℕ) : ℚ) + ((0 : ℕ) : ℚ) / 10 ^ (8 : ℕ)) := rfl
  simp only [epochOfLine1, h1, h2]
  rw [if_neg (by decide : ¬ (57 : ℤ) ≤ 24)]
  have ht : (jan1Ordinal (2000 + 24) : ℚ) + (((1 : ℕ) : ℚ) + ((0 : ℕ) : ℚ) / 10 ^ (8 : ℕ) - 1) =
      ((738886 : ℤ) : ℚ) := by
    rw [show jan1Ordinal (2000 + 24) = 738886 from by decide]
    push_cast
    ring
  rw [ht, if_pos]
  · norm_num
  · rw [Int.floor_intCast]
    exact ⟨by norm_num, by rw [show maxOrdinal = 3652059 from rfl]; norm_num⟩

/-- Evaluation: epoch field 24001.50000000 yields ordinal 738886 plus half a
day (noon of 2024-01-01). -/
theorem epochDay15_eval : epochOfLine1 exLine1Day15 = some (738886 + 1 / 2) := by
  have h1 : pyIntL ((pyStripChars (pySlice exLine1Day15 18 32)).take 2) = some 24 := by decide
  have h2 : pyFloatL ((pyStripChars (pySlice exLine1Day15 18 32)).drop 2) =
      some (((1 : ℕ) : ℚ) + ((50000000 : ℕ) : ℚ) / 10 ^ (8 : ℕ)) := rfl
  simp only [epochOfLine1, h1, h2]
  rw [if_neg (by decide : ¬ (57 : ℤ) ≤ 24)]
  have ht : (jan1Ordinal (2000 + 24) : ℚ) +
      (((1 : ℕ) : ℚ) + ((50000000 : ℕ) : ℚ) / 10 ^ (8 : ℕ) - 1) =
      ((738886 : ℤ) : ℚ) + 1 / 2 := by
    rw [show jan1Ordinal (2000 + 24) = 738886 from by decide]
    push_cast
    norm_num
  rw [ht, if_pos]
  · norm_num
  · constructor
    · rw [Int.le_floor]
      push_cast
      norm_num
    · have hlt : ⌊((738886 : ℤ) : ℚ) + 1 / 2⌋ < 3652060 := by
        rw [Int.floor_lt]
        push_cast
        norm_num
      rw [show maxOrdinal = 3652059 from rfl]
      omega

/-- The two epoch parsers of the source compute the same value: the year
pivot conditionals are mirror images of each other. -/
theorem epochSimple_eq (l : String) : epochOfLine1Simple l = epochOfLine1 l := by
  simp only [epochOfLine1Simple, epochOfLine1]
  cases pyIntL ((pyStripChars (pySlice l 18 32)).take 2) with
  | none => rfl
  | some Y =>
    cases pyFloatL ((pyStripChars (pySlice l 18 32)).drop 2) with
    | none => rfl
    | some d =>
      have hpivot : (if Y < 57 then 2000 + Y else 1900 + Y) =
          (if 57 ≤ Y then 1900 + Y else 2000 + Y) := by
        rcases le_or_lt 57 Y with h | h
        · rw [if_neg (not_lt.mpr h), if_pos h]
        · rw [if_pos h, if_neg (not_le.mpr h)]
      dsimp only
      rw [hpivot]

/-- C6: whenever the 14-character epoch field parses, the returned timestamp
is Jan1(pivot(Y)) + (day_decimal - 1) days with pivot(Y) = 1900+Y for
Y ≥ 57 and 2000+Y otherwise, in both epoch parsers; day-of-year 1.0 of field
24001... yields January 1 2024 00:00:00 UTC (ordinal 738886 exactly) and day
1.5 yields the same date at 12:00:00 UTC (ordinal plus one half). -/
theorem claimC6 :
    (∀ (line1 : String) (now T : ℚ), epochOfLine1 line1 = some T →
      parse_tle_epoch line1 now = T ∧
      parse_tle_epoch_simple line1 now = T ∧
      ∃ (Y : ℤ) (d : ℚ),
        pyIntL ((pyStripChars (pySlice line1 18 32)).take 2) = some Y ∧
        pyFloatL ((pyStripChars (pySlice line1 18 32)).drop 2) = some d ∧
        T = (jan1Ordinal (if 57 ≤ Y then 1900 + Y else 2000 + Y) : ℚ) + (d - 1)) ∧
    (∀ now : ℚ, parse_tle_epoch exLine1Day1 now = 738886) ∧
    (∀ now : ℚ, parse_tle_epoch exLine1Day15 now = 738886 + 1 / 2) := by
  refine ⟨?_, ?_, ?_⟩
  · intro line1 now T h0
    have h := h0
    simp only [epochOfLine1] at h
    cases hy : pyIntL ((pyStripChars (pySlice line1 18 32)).take 2) with
    | none => rw [hy] at h; simp at h
    | some Y =>
      rw [hy] at h
      cases hd : pyFloatL ((pyStripChars (pySlice line1 18 32)).drop 2) with
      | none => rw [hd] at h; simp at h
      | some d =>
        rw [hd] at h
        dsimp only at h
        refine ⟨by simp only [parse_tle_epoch, h0], ?_, ?_⟩
        · simp only [parse_tle_epoch_simple, epochSimple_eq, h0]
        · by_cases hb : 1 ≤ ⌊(jan1Ordinal (if 57 ≤ Y then 1900 + Y else 2000 + Y) : ℚ) +
              (d - 1)⌋ ∧ ⌊(jan1Ordinal (if 57 ≤ Y then 1900 + Y else 2000 + Y) : ℚ) +
              (d - 1)⌋ ≤ maxOrdinal
          · rw [if_pos hb] at h
            exact ⟨Y, d, rfl, rfl, (Option.some.injEq _ _).mp h |>.symm⟩
          · rw [if_neg hb] at h
            simp at h
  · intro now
    simp only [parse_tle_epoch, epochDay1_eval]
  · intro now
    simp only [parse_tle_epoch, epochDay15_eval]

/-- Witness for C6 at the two exemplar epoch fields. -/
theorem claimC6_witness :
    epochOfLine1 exLine1Day1 = some 738886 ∧
    parse_tle_epoch exLine1Day1 0 = 738886 ∧
    parse_tle_epoch_simple exLine1Day1 0 = 738886 ∧
    parse_tle_epoch exLine1Day15 0 = 738886 + 1 / 2 := by
  have h := claimC6.1 exLine1Day1 0 738886 epochDay1_eval
  exact ⟨epochDay1_eval, h.1, h.2.1, claimC6.2.2 0⟩

/-- C7: is_stale holds exactly when the age exceeds 3 days, and the warning
is the documented step function of the age — severe past 7 days, moderate
between 3 and 7 days, a soft advisory between 24 hours and 3 days, and
nothing at or below 24 hours (negative ages included). -/
theorem claimC7 : ∀ epoch now : ℚ,
    ((calculate_tle_age epoch now).is_stale = true ↔
      (calculate_tle_age epoch now).age_days > 3) ∧
    ((calculate_tle_age epoch now).age_days > 7 →
      (calculate_tle_age epoch now).warning =
        some (warnVeryOld (calculate_tle_age epoch now).age_days)) ∧
    (3 < (calculate_tle_age epoch now).age_days →
      (calculate_tle_age epoch now).age_days ≤ 7 →
      (calculate_tle_age epoch now).warning =
        some (warnOld (calculate_tle_age epoch now).age_days)) ∧
    (24 < (calculate_tle_age epoch now).age_hours →
      (calculate_tle_age epoch now).age_days ≤ 3 →
      (calculate_tle_age epoch now).warning =
        some (warnConsider (calculate_tle_age epoch now).age_days)) ∧
    ((calculate_tle_age epoch now).age_hours ≤ 24 →
      (calculate_tle_age epoch now).warning = none) := by
  intro epoch now
  simp only [calculate_tle_age]
  refine ⟨by simp [decide_eq_true_eq], ?_, ?_, ?_, ?_⟩
  · intro h7
    rw [if_pos h7]
  · intro h3 h7
    rw [if_neg (not_lt.mpr h7), if_pos h3]
  · intro h24 h3
    rw [if_neg (not_lt.mpr (by linarith)), if_neg (not_lt.mpr h3), if_pos h24]
  · intro h24
    have hd : (now - epoch) * 24 / 24 ≤ 1 := by linarith
    rw [if_neg (not_lt.mpr (by linarith)), if_neg (not_lt.mpr (by linarith)),
      if_neg (not_lt.mpr h24)]

/-- Witness for C7 at a five-day-old epoch. -/
theorem claimC7_witness :
    (calculate_tle_age 0 5).age_days > 3 ∧
    (calculate_tle_age 0 5).is_stale = true ∧
    (calculate_tle_age 0 5).warning = some (warnOld (calculate_tle_age 0 5).age_days) := by
  have h := claimC7 0 5
  have h3 : (calculate_tle_age 0 5).age_days > 3 := by
    simp only [calculate_tle_age]
    norm_num
  have h7 : (calculate_tle_age 0 5).age_days ≤ 7 := by
    simp only [calculate_tle_age]
    norm_num
  exact ⟨h3, h.1.mpr h3, h.2.2.1 h3 h7⟩

/-- C8: when the field conversion of either parser raises, the documented
fallbacks are returned — the current time for the epoch, the literal 15.0
rev/day for the mean motion; both embedded parsers are total functions, so
neither failure escapes to the caller. -/
theorem claimC8 :
    (∀ line2 : String, pyFloatL (pyStripChars (pySlice line2 52 63)) = none →
      parse_tle_mean_motion line2 = 15) ∧
    (∀ (line1 : String) (now : ℚ),
      (pyIntL ((pyStripChars (pySlice line1 18 32)).take 2) = none ∨
       pyFloatL ((pyStripChars (pySlice line1 18 32)).drop 2) = none) →
      parse_tle_epoch line1 now = now) := by
  constructor
  · intro line2 h
    simp only [parse_tle_mean_motion, h]
  · intro line1 now h
    have hnone : epochOfLine1 line1 = none := by
      simp only [epochOfLine1]
      rcases h with h | h
      · rw [h]
      · cases hy : pyIntL ((pyStripChars (pySlice line1 18 32)).take 2) with
        | none => rfl
        | some Y => rw [h]
    simp only [parse_tle_epoch, hnone]

/-- Witness for C8 on an empty line, whose sliced fields are empty and fail
both conversions. -/
theorem claimC8_witness :
    pyFloatL (pyStripChars (pySlice ("") 52 63)) = none ∧
    parse_tle_mean_motion ("") = 15 ∧
    parse_tle_epoch ("") 42 = 42 :=
  ⟨by decide, claimC8.1 ("") (by decide), claimC8.2 ("") 42 (Or.inl (by decide))⟩

/-- C1: threshold override of predict.  On the success path, a cascade
confidence strictly below the caller threshold forces class "unknown" with
the reason replaced by the message citing both values, while at or above the
threshold class and reason pass through unchanged; the returned confidence
and probability triple always equal the pre-override cascade values. -/
theorem claimC1 (req : PredictRequest) (orc : SgpOutcome) (now : ℚ) (elapsed_ms t : ℝ)
    (h1 : req.threshold = some t) (h2 : parse_tle_mean_motion req.line2 ≠ 0) :
    ∃ resp, predict req orc now elapsed_ms = .ok resp ∧
      ((classify_object (req.satellite_name.getD (""))
          (altitude_used req orc now)).confidence < t →
        resp.predicted_class = "unknown" ∧
        resp.classification_reason = overrideMsg (classify_object (req.satellite_name.getD (""))
          (altitude_used req orc now)).confidence t) ∧
      (¬ (classify_object (req.satellite_name.getD (""))
          (altitude_used req orc now)).confidence < t →
        resp.predicted_class = (classify_object (req.satellite_name.getD (""))
          (altitude_used req orc now)).cls ∧
        resp.classification_reason = (classify_object (req.satellite_name.getD (""))
          (altitude_used req orc now)).reason) ∧
      resp.confidence = (classify_object (req.satellite_name.getD (""))
        (altitude_used req orc now)).confidence ∧
      resp.proba.payload = (classify_object (req.satellite_name.getD (""))
        (altitude_used req orc now)).proba.payload ∧
      resp.proba.rocket_body = (classify_object (req.satellite_name.getD (""))
        (altitude_used req orc now)).proba.rocket_body ∧
      resp.proba.debris = (classify_object (req.satellite_name.getD (""))
        (altitude_used req orc now)).proba.debris := by
  refine ⟨_, predict_ok req orc now elapsed_ms t h1 h2, ?_, ?_, ?_, ?_, ?_, ?_⟩
  · intro hcf
    constructor
    · show (if _ then ("unknown" : String) else _) = "unknown"
      rw [if_pos hcf]
    · show (if _ then overrideMsg _ t else _) = _
      rw [if_pos hcf]
  · intro hcf
    constructor
    · show (if _ then ("unknown" : String) else _) = _
      rw [if_neg hcf]
    · show (if _ then overrideMsg _ t else _) = _
      rw [if_neg hcf]
  · exact (classify_round4 _ _).1
  · exact (classify_round4 _ _).2.1
  · exact (classify_round4 _ _).2.2.1
  · exact (classify_round4 _ _).2.2.2

/-- Witness for C1 at the exemplar request with the default threshold. -/
theorem claimC1_witness :
    exReq.threshold = some (0.6 : ℝ) ∧ parse_tle_mean_motion exReq.line2 ≠ 0 ∧
    ∃ resp, predict exReq exOrcRaise 0 0 = .ok resp ∧
      resp.confidence = (classify_object (exReq.satellite_name.getD (""))
        (altitude_used exReq exOrcRaise 0)).confidence ∧
      resp.proba.debris = (classify_object (exReq.satellite_name.getD (""))
        (altitude_used exReq exOrcRaise 0)).proba.debris := by
  have hmm : parse_tle_mean_motion exReq.line2 ≠ 0 := by
    rw [show exReq.line2 = exLine2A from rfl, exLine2A_eval]
    norm_num
  obtain ⟨resp, hok, hov, hnot, hconf, hp1, hp2, hp3⟩ :=
    claimC1 exReq exOrcRaise 0 0 0.6 rfl hmm
  exact ⟨rfl, hmm, resp, hok, hconf, hp3⟩

/-- Counterexample to C4 as stated: a line 2 whose mean-motion field reads
0.0 parses successfully to zero, and the division 86400.0 / mean_motion in
calculate_orbital_params raises an uncaught ZeroDivisionError, so predict
does not produce a response. -/
theorem claimC4_counterexample :
    predict exReqZero exOrcRaise 0 0 = .error PyErr.zeroDivisionError := by
  have hmm : parse_tle_mean_motion exReqZero.line2 = 0 := by
    rw [show exReqZero.line2 = exLine2Zero from rfl, exLine2Zero_eval]
  have hcop : calculate_orbital_params ((parse_tle_mean_motion exReqZero.line2 : ℚ) : ℝ) =
      .error .zeroDivisionError := by
    rw [hmm]
    simp [calculate_orbital_params]
  simp only [predict, hcop]

/-- Evaluation: the float conversion of the exemplar mean-motion field 15.5
succeeds at the pyFloatL level with value 31/2. -/
theorem exLine2A_pyFloat :
    pyFloatL (pyStripChars (pySlice exLine2A 52 63)) = some (31 / 2) := by
  rw [show pyFloatL (pyStripChars (pySlice exLine2A 52 63)) =
      some (((15 : ℕ) : ℚ) + ((5 : ℕ) : ℚ) / 10 ^ (1 : ℕ)) from rfl]
  norm_num

/-- C4 amended: predict raises no uncaught exception and always produces a
response whenever the caller threshold is an actual number (not null) and
the line-2 mean-motion field is a plain decimal literal that parses to a
nonzero value of magnitude between 10^-100 and 10^100.  The grammar
hypothesis excludes the inf/nan spellings float() also accepts — pyFloatL
accepts only a subset of the Python grammar, with identical values — and
the magnitude bounds confine the claim to the domain on which the
double-precision source is overflow-free: outside them CPython raises
OverflowError at (period_sec / (2 * pi)) ** 2 for tiny mean motions, and an
inf field drives math.sqrt(MU / a) into a ZeroDivisionError.  Those
float-range paths have no counterpart in the exact-real model, so the
grammar and magnitude hypotheses are fidelity guards rather than
ingredients of the Lean proof. -/
theorem claimC4_amended (req : PredictRequest) (orc : SgpOutcome) (now : ℚ)
    (elapsed_ms t : ℝ) (q : ℚ) (h1 : req.threshold = some t)
    (h2 : pyFloatL (pyStripChars (pySlice req.line2 52 63)) = some q)
    (h3 : q ≠ 0) (h4 : 1 / 10 ^ 100 ≤ |q|) (h5 : |q| ≤ 10 ^ 100) :
    ∃ resp, predict req orc now elapsed_ms = .ok resp := by
  have hmm : parse_tle_mean_motion req.line2 = q := by
    simp only [parse_tle_mean_motion, h2]
  exact ⟨_, predict_ok req orc now elapsed_ms t h1 (by rw [hmm]; exact h3)⟩

/-- Witness for the amended C4 at the exemplar request, whose mean-motion
field 15.5 parses to 31/2, nonzero and well inside the magnitude bounds. -/
theorem claimC4_witness :
    exReq.threshold = some (0.6 : ℝ) ∧
    pyFloatL (pyStripChars (pySlice exReq.line2 52 63)) = some (31 / 2) ∧
    (31 / 2 : ℚ) ≠ 0 ∧ 1 / 10 ^ 100 ≤ |(31 / 2 : ℚ)| ∧ |(31 / 2 : ℚ)| ≤ 10 ^ 100 ∧
    ∃ resp, predict exReq exOrcRaise 0 0 = .ok resp := by
  have habs : |(31 / 2 : ℚ)| = 31 / 2 := abs_of_nonneg (by norm_num)
  have h2 : pyFloatL (pyStripChars (pySlice exReq.line2 52 63)) = some (31 / 2) := by
    rw [show exReq.line2 = exLine2A from rfl]
    exact exLine2A_pyFloat
  have h4 : 1 / 10 ^ 100 ≤ |(31 / 2 : ℚ)| := by rw [habs]; norm_num
  have h5 : |(31 / 2 : ℚ)| ≤ 10 ^ 100 := by rw [habs]; norm_num
  exact ⟨rfl, h2, by norm_num, h4, h5,
    claimC4_amended exReq exOrcRaise 0 0 0.6 (31 / 2) rfl h2 (by norm_num) h4 h5⟩

/-- C5: propagation failure is uniform and non-fatal — a raising SGP4 call
and a nonzero error code both yield no propagation data, in which case the
response reports the two-body approximation altitude; on success the
response reports the magnitude of the (rounded) propagated position vector
minus 6371.0 km, preferred over the approximation. -/
theorem claimC5 (orc : SgpOutcome) (now : ℚ) :
    (∀ e : Unit, orc = .error e → propagate_sgp4 orc now = none) ∧
    (∀ (ec : ℤ) (p v : Vec3), orc = .ok (ec, p, v) → ec ≠ 0 →
      propagate_sgp4 orc now = none) ∧
    (∀ (req : PredictRequest) (elapsed_ms t : ℝ), req.threshold = some t →
      parse_tle_mean_motion req.line2 ≠ 0 →
      ∃ resp, predict req orc now elapsed_ms = .ok resp ∧
        (propagate_sgp4 orc now = none →
          resp.orbital_stats.altitude_km =
            roundTo (semiMajorAxis ((parse_tle_mean_motion req.line2 : ℚ) : ℝ) - R_EARTH) 2) ∧
        (∀ pd, propagate_sgp4 orc now = some pd →
          resp.orbital_stats.altitude_km =
            roundTo (Real.sqrt (pd.position_km.x ^ 2 + pd.position_km.y ^ 2 +
              pd.position_km.z ^ 2) - 6371.0) 2)) := by
  refine ⟨?_, ?_, ?_⟩
  · intro e he
    rw [he]
    rfl
  · intro ec p v he hne
    rw [he]
    simp only [propagate_sgp4, if_pos hne]
  · intro req elapsed_ms t h1 h2
    refine ⟨_, predict_ok req orc now elapsed_ms t h1 h2, ?_, ?_⟩
    · intro hnone
      have ha : altitude_used req orc now =
          semiMajorAxis ((parse_tle_mean_motion req.line2 : ℚ) : ℝ) - R_EARTH := by
        simp only [altitude_used, hnone]
      show roundTo (altitude_used req orc now) 2 = _
      rw [ha]
    · intro pd hpd
      have ha : altitude_used req orc now =
          Real.sqrt (pd.position_km.x ^ 2 + pd.position_km.y ^ 2 + pd.position_km.z ^ 2)
            - 6371.0 := by
        simp only [altitude_used, hpd]
      show roundTo (altitude_used req orc now) 2 = _
      rw [ha]

/-- Witness for C5 at a raising SGP4 call: no propagation block and the
approximation altitude is reported. -/
theorem claimC5_witness :
    propagate_sgp4 exOrcRaise 0 = none ∧
    ∃ resp, predict exReq exOrcRaise 0 0 = .ok resp ∧
      resp.orbital_stats.altitude_km =
        roundTo (semiMajorAxis ((parse_tle_mean_motion exReq.line2 : ℚ) : ℝ) - R_EARTH) 2 := by
  have h := claimC5 exOrcRaise 0
  have hmm : parse_tle_mean_motion exReq.line2 ≠ 0 := by
    rw [show exReq.line2 = exLine2A from rfl, exLine2A_eval]
    norm_num
  have hnone : propagate_sgp4 exOrcRaise 0 = none := h.1 () rfl
  obtain ⟨resp, hok, haltn, _⟩ := h.2.2 exReq 0 0.6 rfl hmm
  exact ⟨hnone, resp, hok, haltn hnone⟩

/-- Numeric bound: the two-body semi-major axis at 15 rev/day is below
8371 km, so the approximation altitude is below 2000 km (LEO). -/
theorem semiMajorAxis_15_lt : semiMajorAxis 15 < 8371 := by
  have hpi : (3.14 : ℝ) < Real.pi := Real.pi_gt_d2
  have hMU : (0 : ℝ) < MU := by rw [MU]; norm_num
  have hB : MU * (86400.0 / 15 / (2 * Real.pi)) ^ 2 < 8371 ^ 3 := by
    have h1 : 86400.0 / 15 / (2 * Real.pi) < 86400.0 / 15 / 6.28 :=
      div_lt_div_of_pos_left (by norm_num) (by norm_num) (by linarith)
    have h0 : (0 : ℝ) < 86400.0 / 15 / (2 * Real.pi) := by positivity
    have hsq : (86400.0 / 15 / (2 * Real.pi)) ^ 2 < (86400.0 / 15 / 6.28) ^ 2 :=
      pow_lt_pow_left₀ h1 (le_of_lt h0) (by norm_num)
    have hlt : MU * (86400.0 / 15 / (2 * Real.pi)) ^ 2 < MU * (86400.0 / 15 / 6.28) ^ 2 :=
      mul_lt_mul_of_pos_left hsq hMU
    refine lt_trans hlt ?_
    rw [MU]
    norm_num
  have hB0 : (0 : ℝ) ≤ MU * (86400.0 / 15 / (2 * Real.pi)) ^ 2 :=
    mul_nonneg (le_of_lt hMU) (sq_nonneg _)
  have hrp := Real.rpow_lt_rpow hB0 hB (by norm_num : (0 : ℝ) < 1 / 3)
  rw [semiMajorAxis]
  refine lt_of_lt_of_le hrp (le_of_eq ?_)
  rw [show ((8371 : ℝ) ^ 3) = (8371 : ℝ) ^ ((3 : ℕ) : ℝ) from (Real.rpow_natCast _ 3).symm]
  rw [← Real.rpow_mul (by norm_num : (0 : ℝ) ≤ 8371)]
  norm_num

/-- C9: on the success path the region tag and the reported velocity always
come from the mean-motion two-body approximation computed before the
altitude override, and are never recomputed from the propagated state, while
a successful propagation replaces the reported altitude — so region and
velocity can disagree with altitude_km (the witness exhibits region "LEO"
with a reported altitude of 43629 km). -/
theorem claimC9 (req : PredictRequest) (orc : SgpOutcome) (now : ℚ) (elapsed_ms t : ℝ)
    (h1 : req.threshold = some t) (h2 : parse_tle_mean_motion req.line2 ≠ 0) :
    ∃ resp, predict req orc now elapsed_ms = .ok resp ∧
      resp.region =
        regionOf (semiMajorAxis ((parse_tle_mean_motion req.line2 : ℚ) : ℝ) - R_EARTH) ∧
      resp.orbital_stats.velocity_kms =
        roundTo (Real.sqrt (MU / semiMajorAxis ((parse_tle_mean_motion req.line2 : ℚ) : ℝ))) 3 ∧
      (∀ pd, propagate_sgp4 orc now = some pd →
        resp.orbital_stats.altitude_km =
          roundTo (Real.sqrt (pd.position_km.x ^ 2 + pd.position_km.y ^ 2 +
            pd.position_km.z ^ 2) - 6371.0) 2) := by
  refine ⟨_, predict_ok req orc now elapsed_ms t h1 h2, rfl, rfl, ?_⟩
  intro pd hpd
  have ha : altitude_used req orc now =
      Real.sqrt (pd.position_km.x ^ 2 + pd.position_km.y ^ 2 + pd.position_km.z ^ 2)
        - 6371.0 := by
    simp only [altitude_used, hpd]
  show roundTo (altitude_used req orc now) 2 = _
  rw [ha]

/-- Witness for C9: mean motion 15 keeps the region tag at "LEO" while a
successful propagation at 50000 km reports altitude 43629 km — a
GEO-or-beyond altitude paired with a LEO region tag. -/
theorem claimC9_witness :
    ∃ resp, predict exReq15 exOrcGeo 0 0 = .ok resp ∧
      resp.region = "LEO" ∧ resp.orbital_stats.altitude_km = 43629 := by
  have hmm15 : parse_tle_mean_motion exReq15.line2 = 15 := by
    rw [show exReq15.line2 = exLine2B from rfl, exLine2B_eval]
  have hmm : parse_tle_mean_motion exReq15.line2 ≠ 0 := by
    rw [hmm15]
    norm_num
  obtain ⟨resp, hok, hreg, hvel, halt⟩ := claimC9 exReq15 exOrcGeo 0 0 0.6 rfl hmm
  have hpd : propagate_sgp4 exOrcGeo 0 = some ⟨⟨50000, 0, 0⟩, ⟨0, 0, 0⟩, 0⟩ := by
    simp only [exOrcGeo, propagate_sgp4]
    rw [if_neg (by decide : ¬ (0 : ℤ) ≠ 0)]
    rw [roundTo_self (50000 : ℝ) 3 50000000 (by norm_num),
      roundTo_self (0 : ℝ) 3 0 (by norm_num), roundTo_self (0 : ℝ) 6 0 (by norm_num)]
  refine ⟨resp, hok, ?_, ?_⟩
  · rw [hreg, hmm15]
    rw [show (((15 : ℚ) : ℝ)) = (15 : ℝ) by norm_num]
    rw [regionOf, if_pos]
    have := semiMajorAxis_15_lt
    rw [R_EARTH]
    linarith
  · rw [halt _ hpd]
    dsimp only
    have hs : Real.sqrt ((50000 : ℝ) ^ 2 + 0 ^ 2 + 0 ^ 2) = 50000 := by
      rw [show ((50000 : ℝ) ^ 2 + 0 ^ 2 + 0 ^ 2) = 50000 ^ 2 by norm_num]
      exact Real.sqrt_sq (by norm_num)
    rw [hs, show (50000 : ℝ) - 6371.0 = 43629 by norm_num]
    exact roundTo_self _ _ 4362900 (by norm_num)
